import Mathlib

/-!
Verification of the alpha_care_insurance analysis toolkit against its
natural-language specification.  The repository is a small Python code base
(data loader, statistical primitives, A/B testing orchestrator, modeling
pipeline); the definitions below are a shallow embedding of the functions the
claims talk about, translated from the Python source files
`src/data_loader.py`, `src/stats/hypothesis.py`, `src/stats/ab_testing.py`
and `src/stats/modeling.py`.  Machine floats are modelled by exact rationals
(with NaN represented as an absent `Option` value where the code can produce
one), pandas tables by lists of named columns, and the few external numeric
kernels (the t-distribution tail, the chi-squared tail, pandas cell parsing)
by explicit function parameters, so that every repository-owned decision is
concrete and executable.
-/

namespace AlphaCare

/-- Model of the Python exception values the repository can raise or
handle.  `FileNotFoundError` is a subclass of `OSError` in Python;
`ValueError` and `TypeError` are unrelated to that hierarchy, so only the
`fileNotFoundError` constructor belongs to the file-not-found class. -/
inductive PyErr where
  | valueError (msg : String)
  | typeError (msg : String)
  | fileNotFoundError (msg : String)
deriving DecidableEq, Repr

/-- Whether an exception belongs to the FileNotFound class (Python class
hierarchy: `FileNotFoundError < OSError`; `ValueError` is outside it). -/
def PyErr.isFileNotFoundClass : PyErr → Bool
  | .fileNotFoundError _ => true
  | _ => false

/-- A cell of a loaded table: raw text, a parsed number, a parsed date
(timestamps modelled as rationals), or a missing value (pandas NaN/NaT). -/
inductive Value where
  | vStr (s : String)
  | vNum (q : ℚ)
  | vDate (d : ℚ)
  | vMissing
deriving DecidableEq, Repr

/-- A cell is numeric-or-missing (the invariant the spec states for the
TotalPremium and TotalClaims columns after loading). -/
def Value.numOrMissing : Value → Bool
  | .vNum _ => true
  | .vMissing => true
  | _ => false

/-- A named column of a pandas DataFrame. -/
structure Column where
  name : String
  cells : List Value
deriving DecidableEq, Repr

/-- A pandas DataFrame, as the loader manipulates it: a list of named
columns. -/
abbrev Table := List Column

/-- The external pandas conversion kernels used by `load_data`:
`pd.to_numeric(errors=coerce)` on one cell, `pd.to_datetime` with the two
fixed formats, and `astype(str)`.  Their parsing grammars live outside the
repository, so they are parameters of the embedding. -/
structure PandasOps where
  toNum : Value → Option ℚ
  toDateTime : Value → Option ℚ
  toMonthYear : Value → Option ℚ
  toStr : Value → String

/-- The fixed rename map of `load_data` (step 2 of the source): normalizes
known inconsistent raw column names to canonical ones. -/
def renameColumn : String → String
  | "make" => "Make"
  | "model" => "Model"
  | "cubiccapacity" => "CubicCapacity"
  | "kilowatts" => "Kilowatts"
  | "bodytype" => "BodyType"
  | "mmcode" => "Mmcode"
  | "Total_Premium" => "TotalPremium"
  | "Total_Claims" => "TotalClaims"
  | "Transaction_Month" => "TransactionMonth"
  | s => s

/-- Strip leading and trailing whitespace from a string (`str.strip()`),
written by structural recursion over the character list so that concrete
tables evaluate inside proofs. -/
def strStrip (s : String) : String :=
  ⟨((s.data.dropWhile Char.isWhitespace).reverse.dropWhile Char.isWhitespace).reverse⟩

/-- Strip whitespace from every column header
(`df.columns.str.strip()`). -/
def stripCols (df : Table) : Table :=
  df.map (fun c => ⟨strStrip c.name, c.cells⟩)

/-- Apply the rename map to every column header. -/
def renameCols (df : Table) : Table :=
  df.map (fun c => ⟨renameColumn c.name, c.cells⟩)

/-- The required column set checked by `load_data` (step 3 of the
source). -/
def requiredCols : List String :=
  ["TotalClaims", "TotalPremium", "TransactionMonth", "Province", "VehicleType"]

/-- The fixed list of columns coerced to numeric (step 5 of the source). -/
def numericCols : List String :=
  ["TotalPremium", "TotalClaims", "CalculatedPremiumPerTerm", "SumInsured",
   "Cylinders", "CubicCapacity", "Kilowatts", "CustomValueEstimate",
   "CapitalOutstanding"]

/-- The fixed list of identifier-like columns cast to text (step 6 of the
source). -/
def catCols : List String :=
  ["PostalCode", "Mmcode", "PolicyID", "UnderwrittenCoverID"]

/-- Column-presence test (`col in df.columns`). -/
def hasCol (df : Table) (c : String) : Bool :=
  df.any (fun col => col.name == c)

/-- Transform the cells of the column named `c`, leaving every other column
unchanged; a no-op when no column has that name (this is the
`if col in df.columns: df[col] = df[col].map(f)` pattern of the source). -/
def applyCol (c : String) (f : Value → Value) (df : Table) : Table :=
  df.map (fun col => if col.name = c then ⟨col.name, col.cells.map f⟩ else col)

/-- One cell under `pd.to_numeric(errors=coerce)`: a parseable value becomes
a number, anything else becomes missing. -/
def numCoerce (ops : PandasOps) (v : Value) : Value :=
  match ops.toNum v with
  | some q => .vNum q
  | none => .vMissing

/-- One cell under `pd.to_datetime(errors=coerce)` with a fixed format. -/
def dateCoerce (td : Value → Option ℚ) (v : Value) : Value :=
  match td v with
  | some d => .vDate d
  | none => .vMissing

/-- The required columns absent from a table, in the order the source checks
them. -/
def missingFrom (df : Table) : List String :=
  requiredCols.filter (fun c => ¬ hasCol df c)

/-- Steps 2 of `load_data`: strip header whitespace, then normalize the
known inconsistent names. -/
def normalizeHeaders (raw : Table) : Table :=
  renameCols (stripCols raw)

/-- Steps 4 to 6 of `load_data`, applied once all required columns are
present: parse the two date columns with their fixed formats, coerce the
nine numeric columns (invalid tokens to missing), and cast the four
identifier-like columns to text — each in the source's order. -/
def fullClean (ops : PandasOps) (df : Table) : Table :=
  catCols.foldl (fun d c => applyCol c (fun v => .vStr (ops.toStr v)) d)
    (numericCols.foldl (fun d c => applyCol c (numCoerce ops) d)
      (applyCol "VehicleIntroDate" (dateCoerce ops.toMonthYear)
        (applyCol "TransactionMonth" (dateCoerce ops.toDateTime) df)))

/-- What the loader hands back: the diagnostics it printed, and either a
raised exception or the Python return value (`None` or a DataFrame). -/
structure LoadOut where
  warnings : List String
  result : Except PyErr (Option Table)
deriving Repr

/-- Shallow embedding of `load_data` (src/data_loader.py).  The filesystem
is a map from paths to `none` (path does not exist) or `some t` where `t` is
`none` if `pd.read_csv` fails and otherwise the parsed raw table (pandas
dtype inference for the raw cells is folded into the table the filesystem
yields).  Mirrors the source step by step: missing path raises
`ValueError("File not found: ...")`; a parse failure prints and returns
`None`; headers are stripped and renamed; if any required column is missing
the partially parsed table is returned at once with a printed warning;
otherwise the two date columns, the nine numeric columns and the four
identifier columns are coerced in the source's order. -/
def load_data (fs : String → Option (Option Table)) (ops : PandasOps)
    (filepath : String) : LoadOut :=
  match fs filepath with
  | none => ⟨[], .error (.valueError ("File not found: " ++ filepath))⟩
  | some none => ⟨["Error loading CSV"], .ok none⟩
  | some (some raw) =>
    let df := normalizeHeaders raw
    let missing := missingFrom df
    if missing.isEmpty then
      ⟨[], .ok (some (fullClean ops df))⟩
    else
      ⟨["CRITICAL WARNING: Missing columns: " ++ String.intercalate ", " missing,
        "Available columns: " ++ String.intercalate ", " (df.map (fun c => c.name))],
       .ok (some df)⟩

/-! ### Statistical primitives (src/stats/hypothesis.py) -/

/-- Drop the missing entries of a series (`Series.dropna()`), keeping the
present rationals. -/
def dropna (xs : List (Option ℚ)) : List ℚ :=
  xs.filterMap id

/-- Arithmetic mean of a list of rationals (`ndarray.mean()`; division by
zero for the empty list never occurs where the code takes a mean of a
resample of positive size). -/
def lmean (xs : List ℚ) : ℚ :=
  xs.sum / xs.length

/-- Sample variance with one delta degree of freedom (`Series.var()`,
pandas default ddof 1). -/
def svar (xs : List ℚ) : ℚ :=
  (xs.map (fun x => (x - lmean xs) ^ 2)).sum / ((xs.length : ℚ) - 1)

/-- Mean of a pandas series: missing entries are skipped, and the mean of an
all-missing series is itself missing (`Series.mean()` with skipna). -/
def pmean (xs : List (Option ℚ)) : Option ℚ :=
  let v := dropna xs
  if v.isEmpty then none else some (lmean v)

/-- Linear-interpolation percentile, `np.percentile(xs, q)` with the default
interpolation: on the sorted data, the value at fractional position
`q / 100 * (len - 1)`.  (Only applied to non-empty lists by the code: the
out-of-range neighbour index can only be hit with interpolation weight
zero.) -/
def percentile (q : ℚ) (xs : List ℚ) : ℚ :=
  let s := xs.insertionSort (· ≤ ·)
  let pos := q * ((xs.length : ℚ) - 1) / 100
  let i := ⌊pos⌋.toNat
  let g := pos - i
  s.getD i 0 + g * (s.getD (i + 1) 0 - s.getD i 0)

/-- One bootstrap resample: `np.random.choice(xs, size, replace=True)`.  The
pseudo-random draw is abstracted as an index stream `idx`; the stream value
is reduced into range, matching the uniform in-range draw the library
performs. -/
def resample (xs : List ℚ) (idx : ℕ → ℕ) (size : ℕ) : List ℚ :=
  (List.range size).map (fun j => xs.getD (idx j % xs.length) 0)

/-- Shallow embedding of `bootstrap_ci` (src/stats/hypothesis.py).  `sa i`
and `sb i` are the index streams the random generator produces for iteration
`i`.  An empty post-dropna sample makes `np.random.choice` raise, which the
function catches and converts to `None`; otherwise the loop collects `n`
resampled mean differences, both resamples drawn at the smaller sample's
size, and the 2.5th/97.5th percentile pair is returned. -/
def bootstrap_ci (sa sb : ℕ → ℕ → ℕ) (a b : List (Option ℚ)) (n : ℕ) :
    Option (ℚ × ℚ) :=
  let av := dropna a
  let bv := dropna b
  if av.length = 0 ∨ bv.length = 0 then none
  else
    let size := min av.length bv.length
    let diffs := (List.range n).map (fun i =>
      lmean (resample av (sa i) size) - lmean (resample bv (sb i) size))
    some (percentile (5 / 2) diffs, percentile (195 / 2) diffs)

/-- Shallow embedding of `t_test` (src/stats/hypothesis.py):
`scipy.stats.ttest_ind(a.dropna(), b.dropna(), equal_var=False)`, the Welch
unequal-variance test.  The two-sided p-value depends on the statistic
`t = (mean a - mean b) / sqrt(v)`, with `v = var a / n_a + var b / n_b`,
only through its square, so the pair is encoded as the squared statistic and
the p-value; the t-distribution tail is the external kernel `pfun`, applied
to the squared statistic and the Welch-Satterthwaite degrees of freedom.
When `v = 0` (both samples degenerate) or a sample has fewer than two
observations, scipy produces NaN statistic and p-value without raising,
encoded `none`; the wrapping `try/except` can therefore never fire, so the
embedding is total with outer value `some`. -/
def t_test (pfun : ℚ → ℚ → ℚ) (a b : List (Option ℚ)) :
    Option (Option ℚ × Option ℚ) :=
  let av := dropna a
  let bv := dropna b
  if av.length < 2 ∨ bv.length < 2 then some (none, none)
  else
    let va := svar av / av.length
    let vb := svar bv / bv.length
    let v := va + vb
    if v = 0 then some (none, none)
    else
      let tsq := (lmean av - lmean bv) ^ 2 / v
      let dfree := v ^ 2 / (va ^ 2 / ((av.length : ℚ) - 1) + vb ^ 2 / ((bv.length : ℚ) - 1))
      some (some tsq, some (pfun tsq dfree))

/-- Shallow embedding of `cohens_d` (src/stats/hypothesis.py): the mean
difference divided by the square root of the unweighted average of the two
sample variances (`np.sqrt((a.var() + b.var()) / 2)`). -/
noncomputable def cohens_d (a b : List (Option ℚ)) : ℝ :=
  let av := dropna a
  let bv := dropna b
  ((lmean av - lmean bv : ℚ) : ℝ) / Real.sqrt (((svar av + svar bv) / 2 : ℚ) : ℝ)

/-- Follows the spec's words, for comparison with `cohens_d`: the
standardized mean difference via the pooled standard deviation, pooling the
two sample variances weighted by the samples' sizes. -/
noncomputable def cohensDSizePooled (a b : List (Option ℚ)) : ℝ :=
  let av := dropna a
  let bv := dropna b
  ((lmean av - lmean bv : ℚ) : ℝ) /
    Real.sqrt (((((av.length : ℚ) - 1) * svar av + ((bv.length : ℚ) - 1) * svar bv) /
      ((av.length : ℚ) + (bv.length : ℚ) - 2) : ℚ) : ℝ)

/-- The structured result `translate_insight` builds.  The `What` entry is
modelled by the test name it formats; the `EffectSize` entry by the real
number whose rendering the code stores. -/
structure Insight where
  what : String
  interpretation : String
  effectSize : Option ℝ
  businessAction : String

/-- Shallow embedding of `translate_insight` (src/stats/hypothesis.py):
`significant = p_value < 0.05` (a NaN p-value, modelled `none`, compares
false), with the fixed interpretation and business-action strings. -/
def translate_insight (testName : String) (p : Option ℚ) (effect : Option ℝ) :
    Insight :=
  let significant := match p with
    | some q => decide (q < 1 / 20)
    | none => false
  { what := testName
    interpretation :=
      if significant then "Significant difference" else "No significant difference"
    effectSize := effect
    businessAction :=
      if significant then
        "Investigate driver variables and adjust pricing or risk models."
      else
        "No immediate business action required." }

/-! ### A/B testing orchestrator (src/stats/ab_testing.py) -/

/-- A policy record as the A/B orchestrator consumes it: the two currency
columns (missing cells modelled `none`) and the value of the categorical
grouping column under study (the `group_col` the methods receive names this
attribute in the source; the embedding fixes one grouping attribute per
dataset). -/
structure Row where
  totalPremium : Option ℚ
  totalClaims : Option ℚ
  group : String
deriving DecidableEq, Repr

/-- A prepared record: the loaded fields plus the two derived metrics
`_prepare_data` attaches. -/
structure PRow where
  totalPremium : Option ℚ
  totalClaims : Option ℚ
  group : String
  hasClaim : ℕ
  margin : Option ℚ
deriving DecidableEq, Repr

/-- The derived binary risk indicator
`(df[TotalClaims] > 0).astype(int)`: a pandas comparison of NaN with 0 is
false, so a missing amount yields 0. -/
def hasClaimOf : Option ℚ → ℕ
  | some v => if 0 < v then 1 else 0
  | none => 0

/-- The derived margin `TotalPremium - TotalClaims`; pandas arithmetic
propagates a missing operand. -/
def marginOf : Option ℚ → Option ℚ → Option ℚ
  | some p, some c => some (p - c)
  | _, _ => none

/-- `ABTester._prepare_data`: attach `HasClaim` and `Margin` to a working
copy of every record. -/
def prepare (df : List Row) : List PRow :=
  df.map (fun r =>
    ⟨r.totalPremium, r.totalClaims, r.group, hasClaimOf r.totalClaims,
     marginOf r.totalPremium r.totalClaims⟩)

/-- The `ABTester` state after `__init__`: the prepared working copy and the
claims-only subset `severity_df`. -/
structure ABTester where
  df : List PRow
  severityDf : List PRow
deriving DecidableEq, Repr

/-- `ABTester.__init__`: prepare the data and restrict `severity_df` to the
rows with `HasClaim == 1`. -/
def ABTester.ofData (df : List Row) : ABTester :=
  let p := prepare df
  ⟨p, p.filter (fun r => r.hasClaim == 1)⟩

/-- `pd.crosstab(df[group_col], df[HasClaim])`: the contingency table of
observed counts, rows indexed by the group values present in the data and
columns by the `HasClaim` values present (pandas sorts the labels; the label
order is irrelevant to everything the repository does with the table). -/
def crosstab (data : List PRow) : List (List ℕ) :=
  let gs := (data.map (fun r => r.group)).dedup
  let hs := (data.map (fun r => r.hasClaim)).dedup
  gs.map (fun g => hs.map (fun h =>
    (data.filter (fun r => r.group == g && r.hasClaim == h)).length))

/-- Column sums of a contingency table. -/
def colSums (t : List (List ℕ)) : List ℕ :=
  (List.range (t.headD []).length).map (fun j => (t.map (fun row => row.getD j 0)).sum)

/-- `scipy.stats.chi2_contingency`, modelled at the precision the repository
relies on: an empty observed table raises `ValueError`; a zero element in
the expected-frequency table (a zero row or column margin) raises
`ValueError`; a degenerate table with zero degrees of freedom returns
statistic 0 and p-value 1; otherwise the statistic and p-value come from the
external chi-squared kernel `pfun`, with degrees of freedom
`(rows - 1) * (cols - 1)`.  The fourth component of the scipy return value,
the expected-frequency table, is unpacked but never used by the repository
and is omitted from the model. -/
def chi2_contingency (pfun : List (List ℕ) → ℚ × ℚ) (obs : List (List ℕ)) :
    Except PyErr (ℚ × ℚ × ℕ) :=
  let nr := obs.length
  let nc := (obs.headD []).length
  if nr = 0 ∨ nc = 0 then
    .error (.valueError "No data; observed has size 0.")
  else if (obs.map List.sum).any (· == 0) ∨ (colSums obs).any (· == 0) then
    .error (.valueError "The internally computed table of expected frequencies has a zero element.")
  else if (nr - 1) * (nc - 1) = 0 then
    .ok (0, 1, 0)
  else
    let sp := pfun obs
    .ok (sp.1, sp.2, (nr - 1) * (nc - 1))

/-- Shallow embedding of `chi_square` (src/stats/hypothesis.py): build the
contingency table and run the chi-squared test; any exception is caught,
printed, and converted to `None`. -/
def chi_square (pfun : List (List ℕ) → ℚ × ℚ) (data : List PRow) :
    Option (ℚ × ℚ × ℕ) :=
  match chi2_contingency pfun (crosstab data) with
  | .ok r => some r
  | .error _ => none

/-- The value `test_frequency` produces: either the degraded
insufficient-data dictionary of its `except ValueError` handler, or the
translated insight together with the two group claim rates and the p-value
entry. -/
inductive FreqResult where
  | degraded (test interp : String)
  | result (i : Insight) (rateA rateB : Option ℚ) (p : ℚ)

/-- Shallow embedding of `ABTester.test_frequency`.  The `try` block holds
exactly the call-and-unpack `stat, p_value, dof, expected = chi_square(...)`;
`chi_square` converts every internal exception to `None`, so the unpack of
`None` raises `TypeError`, which the `except ValueError` handler does not
catch.  `group_col` only names the grouping attribute in labels. -/
def ABTester.test_frequency (pfun : List (List ℕ) → ℚ × ℚ) (t : ABTester)
    (groupCol : String) (ga gb : String) : Except PyErr FreqResult :=
  let data := t.df.filter (fun r => r.group == ga || r.group == gb)
  let unpacked : Except PyErr (ℚ × ℚ × ℕ) :=
    match chi_square pfun data with
    | none => .error (.typeError "cannot unpack non-iterable NoneType object")
    | some r => .ok r
  match unpacked with
  | .error (.valueError _) =>
    .ok (.degraded "Frequency (Chi-Sq)" "Not enough data/variance for test.")
  | .error e => .error e
  | .ok (_, p, _) =>
    let rateA := pmean ((data.filter (fun r => r.group == ga)).map
      (fun r => some (r.hasClaim : ℚ)))
    let rateB := pmean ((data.filter (fun r => r.group == gb)).map
      (fun r => some (r.hasClaim : ℚ)))
    let insight := translate_insight
      ("Chi-Sq on Claim Frequency for " ++ groupCol ++ ": " ++ ga ++ " vs " ++ gb)
      (some p) none
    .ok (.result insight rateA rateB p)

/-- The value `test_severity` produces: the insufficient-data dictionary of
the minimum-sample guard, or the translated insight with the p-value entry
and the two group claim averages. -/
inductive SevResult where
  | insufficient (test interp : String)
  | result (i : Insight) (p : Option ℚ) (avgA avgB : Option ℚ)

/-- The p-value entry of a severity result, when a test was performed. -/
def SevResult.pvalue : SevResult → Option (Option ℚ)
  | .insufficient _ _ => none
  | .result _ p _ _ => some p

/-- The claims-only series `test_severity` extracts for one group:
`severity_df[severity_df[group_col] == g][TotalClaims]`. -/
def sevGroupData (t : ABTester) (g : String) : List (Option ℚ) :=
  (t.severityDf.filter (fun r => r.group == g)).map (fun r => r.totalClaims)

/-- Shallow embedding of `ABTester.test_severity`: restrict to the
claims-only subset, return the insufficient-data dictionary when either
group has fewer than five observations, and otherwise run the Welch test
and effect size and translate the insight. -/
noncomputable def ABTester.test_severity (pfun : ℚ → ℚ → ℚ) (t : ABTester)
    (groupCol : String) (ga gb : String) : Except PyErr SevResult :=
  if (sevGroupData t ga).length < 5 ∨ (sevGroupData t gb).length < 5 then
    .ok (.insufficient "Severity (T-Test)" "Insufficient claims data for groups.")
  else
    match t_test pfun (sevGroupData t ga) (sevGroupData t gb) with
    | none => .error (.typeError "cannot unpack non-iterable NoneType object")
    | some (_, p) =>
      .ok (.result
        (translate_insight
          ("T-Test on Claim Severity for " ++ groupCol ++ ": " ++ ga ++ " vs " ++ gb)
          p (some (cohens_d (sevGroupData t ga) (sevGroupData t gb))))
        p (pmean (sevGroupData t ga)) (pmean (sevGroupData t gb)))

/-! ### Modeling pipeline (src/stats/modeling.py) -/

/-- The four regressors `train_models` instantiates, in the iteration order
of the Python dict. -/
def modelNames : List String :=
  ["Linear Regression", "Decision Tree", "Random Forest", "XGBoost"]

/-- The `for name, model in models.items(): model.fit(...)` loop of
`train_models`: fit the named models in order, collecting the trained pairs;
the source wraps the loop in no handler, so the first failing fit aborts the
whole loop with its exception. -/
def trainLoop {α : Type} (fit : String → Except PyErr α) :
    List String → Except PyErr (List (String × α))
  | [] => .ok []
  | n :: rest =>
    match fit n with
    | .error e => .error e
    | .ok m =>
      match trainLoop fit rest with
      | .error e => .error e
      | .ok tail => .ok ((n, m) :: tail)

/-- Shallow embedding of `train_models` (src/stats/modeling.py): fit each of
the four models in sequence on the training partition.  Fitting is an
external call that can fail, modelled by the kernel `fit`. -/
def train_models {α : Type} (fit : String → Except PyErr α) :
    Except PyErr (List (String × α)) :=
  trainLoop fit modelNames

/-! ### Derived predicates and concrete data used by the verification -/

/-- Every cell of the column is numeric or missing. -/
def ColOK (col : Column) : Prop :=
  ∀ v ∈ col.cells, v.numOrMissing = true

/-- Every column of the table carrying the name `t` has only
numeric-or-missing cells. -/
def TableOK (t : String) (df : Table) : Prop :=
  ∀ col ∈ df, col.name = t → ColOK col

/-- The p-value entry carried by the outcome of a severity test: `none` when
an exception escaped or the insufficient-data dictionary was returned,
`some p` when a test was performed and reported the (possibly NaN) p-value
`p`. -/
def sevPvalue : Except PyErr SevResult → Option (Option ℚ)
  | .ok s => s.pvalue
  | .error _ => none

/-- A concrete instance of the external pandas kernels, for evaluating the
loader at specific inputs. -/
def opsEx : PandasOps :=
  ⟨fun _ => none, fun _ => none, fun _ => none, fun _ => "cell"⟩

/-- Concrete sample with two observations (values 0 and 2): mean 1, sample
variance 2. -/
def aEx : List (Option ℚ) := [some 0, some 2]

/-- Concrete sample with four observations (0, 0, 0, 6): mean 3/2, sample
variance 9. -/
def bEx : List (Option ℚ) := [some 0, some 0, some 0, some 6]

/-- A concrete chi-squared kernel (the statistic and p-value scipy would
compute for a non-degenerate table are irrelevant to the control flow under
test). -/
def pfunChiEx : List (List ℕ) → ℚ × ℚ := fun _ => (0, 1)

/-- A concrete t-distribution tail kernel with values inside the unit
interval. -/
def pfunHalf : ℚ → ℚ → ℚ := fun _ _ => 1 / 2

/-- A dataset whose ten policies all carry the identical claim amount 100,
five in group X and five in group Y: both severity groups pass the
five-observation gate yet have zero variance. -/
def dfSevNoVar : List Row :=
  [⟨some 10, some 100, "X"⟩, ⟨some 10, some 100, "X"⟩, ⟨some 10, some 100, "X"⟩,
   ⟨some 10, some 100, "X"⟩, ⟨some 10, some 100, "X"⟩,
   ⟨some 10, some 100, "Y"⟩, ⟨some 10, some 100, "Y"⟩, ⟨some 10, some 100, "Y"⟩,
   ⟨some 10, some 100, "Y"⟩, ⟨some 10, some 100, "Y"⟩]

/-- A dataset with five claims in each group and positive variance. -/
def dfSevVar : List Row :=
  [⟨some 10, some 1, "X"⟩, ⟨some 10, some 2, "X"⟩, ⟨some 10, some 3, "X"⟩,
   ⟨some 10, some 4, "X"⟩, ⟨some 10, some 5, "X"⟩,
   ⟨some 10, some 2, "Y"⟩, ⟨some 10, some 2, "Y"⟩, ⟨some 10, some 3, "Y"⟩,
   ⟨some 10, some 4, "Y"⟩, ⟨some 10, some 10, "Y"⟩]

/-- A fit kernel that fails on the second model of the iteration order. -/
def fitFailDT : String → Except PyErr ℕ :=
  fun name => if name = "Decision Tree" then .error (.valueError "fit failed") else .ok 0

/-- A fit kernel that fails on the third model of the iteration order. -/
def fitFailRF : String → Except PyErr ℕ :=
  fun name => if name = "Random Forest" then .error (.valueError "singular matrix") else .ok 7

/-! ## Claim theorems -/

/-- C1, counterexample: loading the nonexistent path produces a `ValueError`,
which is not in the FileNotFound class of Python exceptions, refuting the
claim that every nonexistent path fails with a FileNotFound-class error.
The message names the requested path; the tests of the repository
themselves expect this ValueError. -/
theorem c1_counterexample :
    (load_data (fun _ => none) opsEx "no_such_file.txt").result
        = .error (.valueError "File not found: no_such_file.txt") ∧
      PyErr.isFileNotFoundClass (.valueError "File not found: no_such_file.txt") = false :=
  ⟨rfl, rfl⟩

/-- C1, amended: for every path that does not exist on the filesystem,
`load_data` fails — but with a `ValueError` whose message is the string
"File not found: " followed by the path, not a FileNotFound-class error,
and with no diagnostics printed. -/
theorem c1_raises_value_error (fs : String → Option (Option Table))
    (ops : PandasOps) (path : String) (h : fs path = none) :
    load_data fs ops path = ⟨[], .error (.valueError ("File not found: " ++ path))⟩ := by
  unfold load_data
  rw [h]

/-- C1, witness: the amended theorem applied to a concrete empty filesystem
and path. -/
theorem c1_raises_value_error_witness :
    load_data (fun _ => none) opsEx "data.txt"
      = ⟨[], .error (.valueError "File not found: data.txt")⟩ :=
  c1_raises_value_error (fun _ => none) opsEx "data.txt" rfl

/-- C2, evaluation at the failing input: a dataset holding only group C
rows, asked to compare groups A and B.  The filtered data is empty, the
chi-squared primitive fails internally and returns `None`, and unpacking
`None` raises a `TypeError` that the `except ValueError` handler of
`test_frequency` does not catch — the caller receives an exception instead
of the degraded insufficient-data result. -/
theorem c2_typeerror_escapes :
    ABTester.test_frequency pfunChiEx
        (ABTester.ofData [⟨some 100, some 10, "C"⟩]) "Province" "A" "B"
      = .error (.typeError "cannot unpack non-iterable NoneType object") :=
  rfl

/-- C8: `translate_insight` classifies a p-value as significant exactly when
it is strictly below 1/20: the interpretation string says significant iff
p is below 0.05, the business-action string depends only on that strict
comparison, exactly 0.05 reads as not significant, and 0.049 as
significant. -/
theorem c8_strict_threshold (t : String) (e : Option ℝ) (p : ℚ) :
    ((translate_insight t (some p) e).interpretation = "Significant difference"
        ↔ p < 1 / 20) ∧
      ((translate_insight t (some p) e).businessAction =
        if p < 1 / 20 then
          "Investigate driver variables and adjust pricing or risk models."
        else "No immediate business action required.") ∧
      (translate_insight t (some (1 / 20)) e).interpretation
        = "No significant difference" ∧
      (translate_insight t (some (49 / 1000)) e).interpretation
        = "Significant difference" := by
  refine ⟨?_, ?_, ?_, ?_⟩
  · by_cases h : p < 1 / 20 <;> simp [translate_insight, h]
  · by_cases h : p < 1 / 20 <;> simp [translate_insight, h]
  · norm_num [translate_insight]
  · norm_num [translate_insight]

/-- C6: for every dataset handed to the A/B orchestrator, every prepared row
has `HasClaim = 1` exactly when its `TotalClaims` is a present value greater
than zero, and a missing `TotalClaims` yields `HasClaim = 0` (the pandas
comparison of NaN with 0 is false, so no exception arises). -/
theorem c6_hasclaim (df : List Row) (r : PRow)
    (hr : r ∈ (ABTester.ofData df).df) :
    (r.hasClaim = 1 ↔ ∃ v, r.totalClaims = some v ∧ 0 < v) ∧
      (r.totalClaims = none → r.hasClaim = 0) := by
  have hr' : r ∈ prepare df := hr
  simp only [prepare, List.mem_map] at hr'
  obtain ⟨r0, _, rfl⟩ := hr'
  constructor
  · cases h : r0.totalClaims with
    | none => simp [hasClaimOf, h]
    | some v =>
      by_cases hv : 0 < v
      · simp [hasClaimOf, h, hv]
      · simp only [hasClaimOf, h, if_neg hv]
        constructor
        · intro h0; exact absurd h0 (by norm_num)
        · rintro ⟨w, hw, hw0⟩
          rw [Option.some_inj] at hw
          exact absurd (hw ▸ hw0) hv
  · intro h
    have h' : r0.totalClaims = none := h
    simp [hasClaimOf, h']

/-- C6, witness: the theorem applied to a one-row dataset whose claim amount
is positive. -/
theorem c6_hasclaim_witness :
    (⟨some 5, some 2, "A", 1, some 3⟩ : PRow).hasClaim = 1 ↔
      ∃ v, (⟨some 5, some 2, "A", 1, some 3⟩ : PRow).totalClaims = some v ∧ 0 < v :=
  (c6_hasclaim [⟨some 5, some 2, "A"⟩] ⟨some 5, some 2, "A", 1, some 3⟩
    (by simp [ABTester.ofData, prepare, hasClaimOf, marginOf]; norm_num)).1

/-- C9: when the path exists and parses but one or more required columns are
missing after header normalization, `load_data` does not fail: it returns
the partially parsed (renamed, uncoerced) table and prints the
missing-column warning. -/
theorem c9_partial_table_on_missing_columns (fs : String → Option (Option Table))
    (ops : PandasOps) (path : String) (raw : Table)
    (h : fs path = some (some raw))
    (hm : missingFrom (normalizeHeaders raw) ≠ []) :
    load_data fs ops path =
      ⟨["CRITICAL WARNING: Missing columns: " ++
          String.intercalate ", " (missingFrom (normalizeHeaders raw)),
        "Available columns: " ++
          String.intercalate ", " ((normalizeHeaders raw).map (fun c => c.name))],
       .ok (some (normalizeHeaders raw))⟩ := by
  unfold load_data
  rw [h]
  simp only []
  rw [if_neg]
  simp [List.isEmpty_iff, hm]

/-- C9, witness: a concrete one-column file (only TotalPremium survives the
rename) comes back as-is together with the warning. -/
theorem c9_partial_table_witness :
    load_data (fun p => if p = "d.txt" then some (some [⟨"TotalPremium", [.vStr "abc"]⟩]) else none)
        opsEx "d.txt" =
      ⟨["CRITICAL WARNING: Missing columns: " ++
          String.intercalate ", "
            (missingFrom (normalizeHeaders [⟨"TotalPremium", [.vStr "abc"]⟩])),
        "Available columns: " ++
          String.intercalate ", "
            ((normalizeHeaders [⟨"TotalPremium", [.vStr "abc"]⟩]).map (fun c => c.name))],
       .ok (some (normalizeHeaders [⟨"TotalPremium", [.vStr "abc"]⟩]))⟩ :=
  c9_partial_table_on_missing_columns _ opsEx "d.txt" _ (by simp) (by decide)

/-- A failing element makes the whole training loop fail with its error,
provided every name before it fits successfully. -/
theorem trainLoop_error {α : Type} (fit : String → Except PyErr α) (e : PyErr)
    (x : String) (hx : fit x = .error e) :
    ∀ (pre post : List String), (∀ m ∈ pre, ∃ v, fit m = .ok v) →
      trainLoop fit (pre ++ x :: post) = .error e := by
  intro pre
  induction pre with
  | nil =>
    intro post _
    simp [trainLoop, hx]
  | cons m pre ih =>
    intro post hpre
    obtain ⟨v, hv⟩ := hpre m (by simp)
    have hrest := ih post (fun m' hm' => hpre m' (by simp [hm']))
    simp [trainLoop, hv, hrest]

/-- C4, counterexample: with a fit kernel that fails on the second model
(Decision Tree), `train_models` does not catch the failure and report a null
result for that model only — the whole training run aborts with the
exception and no trained model is returned. -/
theorem c4_counterexample :
    train_models fitFailDT = .error (.valueError "fit failed") ∧
      ∀ l : List (String × ℕ), train_models fitFailDT ≠ .ok l := by
  refine ⟨rfl, ?_⟩
  intro l h
  rw [show train_models fitFailDT = .error (.valueError "fit failed") from rfl] at h
  exact Except.noConfusion h

/-- C4, amended: `train_models` wraps the model-fitting loop in no handler:
if every model before some model in the iteration order fits successfully
and that model's fit raises, the exception propagates out of `train_models`
and the run aborts, with no list of trained models returned and the later
models never fitted. -/
theorem c4_fit_failure_aborts {α : Type} (fit : String → Except PyErr α)
    (e : PyErr) (pre post : List String) (name : String)
    (hsplit : modelNames = pre ++ name :: post)
    (hpre : ∀ m ∈ pre, ∃ v, fit m = .ok v)
    (hname : fit name = .error e) :
    train_models fit = .error e := by
  unfold train_models
  rw [hsplit]
  exact trainLoop_error fit e name hname pre post hpre

/-- C4, witness: the amended theorem applied to a fit kernel failing on the
third model. -/
theorem c4_fit_failure_aborts_witness :
    train_models fitFailRF = .error (.valueError "singular matrix") :=
  c4_fit_failure_aborts fitFailRF (.valueError "singular matrix")
    ["Linear Regression", "Decision Tree"] ["XGBoost"] "Random Forest" rfl
    (by intro m hm; fin_cases hm <;> exact ⟨7, rfl⟩) rfl

/-- C10: after dropping missing values from both samples, `bootstrap_ci`
collects exactly `n` resampled mean differences, each iteration resampling
both groups with replacement at the smaller group's size
(`min` of the two post-dropna lengths), and returns the pair of 2.5th and
97.5th linear-interpolation percentiles of those differences. -/
theorem c10_bootstrap_structure (sa sb : ℕ → ℕ → ℕ) (a b : List (Option ℚ))
    (n : ℕ) (ha : dropna a ≠ []) (hb : dropna b ≠ []) :
    ∃ diffs : List ℚ,
      bootstrap_ci sa sb a b n
          = some (percentile (5 / 2) diffs, percentile (195 / 2) diffs) ∧
        diffs.length = n ∧
        ∀ i, (hi : i < n) →
          diffs.getD i 0 =
            lmean (resample (dropna a) (sa i) (min (dropna a).length (dropna b).length)) -
              lmean (resample (dropna b) (sb i) (min (dropna a).length (dropna b).length)) := by
  refine ⟨(List.range n).map (fun i =>
    lmean (resample (dropna a) (sa i) (min (dropna a).length (dropna b).length)) -
      lmean (resample (dropna b) (sb i) (min (dropna a).length (dropna b).length))), ?_, ?_, ?_⟩
  · unfold bootstrap_ci
    rw [if_neg]
    push_neg
    exact ⟨fun h => ha (List.length_eq_zero.mp h), fun h => hb (List.length_eq_zero.mp h)⟩
  · simp
  · intro i hi
    rw [List.getD_eq_getElem _ _ (by simpa using hi)]
    simp

/-- C10, witness: the theorem applied to concrete samples (one missing value
dropped from the first), a constant index stream, and one iteration. -/
theorem c10_bootstrap_structure_witness :
    ∃ diffs : List ℚ,
      bootstrap_ci (fun _ _ => 0) (fun _ _ => 0) [some 1, none, some 2] [some 3] 1
          = some (percentile (5 / 2) diffs, percentile (195 / 2) diffs) ∧
        diffs.length = 1 ∧
        ∀ i, (hi : i < 1) →
          diffs.getD i 0 =
            lmean (resample (dropna [some 1, none, some 2]) (fun _ => 0)
                (min (dropna [some 1, none, some 2]).length (dropna [some 3]).length)) -
              lmean (resample (dropna [some 3]) (fun _ => 0)
                (min (dropna [some 1, none, some 2]).length (dropna [some 3]).length)) :=
  c10_bootstrap_structure (fun _ _ => 0) (fun _ _ => 0) [some 1, none, some 2]
    [some 3] 1 (by decide) (by decide)

/-- Unfolding of `cohens_d` in terms of its components. -/
theorem cohens_d_def (a b : List (Option ℚ)) :
    cohens_d a b =
      ((lmean (dropna a) - lmean (dropna b) : ℚ) : ℝ) /
        Real.sqrt (((svar (dropna a) + svar (dropna b)) / 2 : ℚ) : ℝ) := rfl

/-- Unfolding of `cohensDSizePooled` in terms of its components. -/
theorem cohensDSizePooled_def (a b : List (Option ℚ)) :
    cohensDSizePooled a b =
      ((lmean (dropna a) - lmean (dropna b) : ℚ) : ℝ) /
        Real.sqrt ((((((dropna a).length : ℚ) - 1) * svar (dropna a) +
            (((dropna b).length : ℚ) - 1) * svar (dropna b)) /
          (((dropna a).length : ℚ) + ((dropna b).length : ℚ) - 2) : ℚ) : ℝ) := rfl

/-- C3, counterexample: on the samples (0, 2) and (0, 0, 0, 6) — sizes 2 and
4, sample variances 2 and 9, mean difference -1/2 — `cohens_d` divides by
the square root of the unweighted variance average 11/2, while the
size-weighted pooled variance is 29/4, so the returned value differs from
the standardized mean difference computed via the size-weighted pooled
standard deviation. -/
theorem c3_counterexample : cohens_d aEx bEx ≠ cohensDSizePooled aEx bEx := by
  have haL : dropna aEx = [0, 2] := rfl
  have hbL : dropna bEx = [0, 0, 0, 6] := rfl
  have hma : lmean [(0 : ℚ), 2] = 1 := by norm_num [lmean]
  have hmb : lmean [(0 : ℚ), 0, 0, 6] = 3 / 2 := by norm_num [lmean]
  have hva : svar [(0 : ℚ), 2] = 2 := by norm_num [svar, lmean]
  have hvb : svar [(0 : ℚ), 0, 0, 6] = 9 := by norm_num [svar, lmean]
  have h1 : (lmean (dropna aEx) - lmean (dropna bEx) : ℚ) = -1 / 2 := by
    rw [haL, hbL, hma, hmb]; norm_num
  have h2 : ((svar (dropna aEx) + svar (dropna bEx)) / 2 : ℚ) = 11 / 2 := by
    rw [haL, hbL, hva, hvb]; norm_num
  have h3 : (((((dropna aEx).length : ℚ) - 1) * svar (dropna aEx) +
        (((dropna bEx).length : ℚ) - 1) * svar (dropna bEx)) /
      (((dropna aEx).length : ℚ) + ((dropna bEx).length : ℚ) - 2) : ℚ) = 29 / 4 := by
    rw [haL, hbL, hva, hvb]; norm_num
  rw [cohens_d_def, cohensDSizePooled_def, h1, h2, h3]
  push_cast
  intro h
  have h11 : (0 : ℝ) < Real.sqrt (11 / 2) := Real.sqrt_pos.mpr (by norm_num)
  have h29 : (0 : ℝ) < Real.sqrt (29 / 4) := Real.sqrt_pos.mpr (by norm_num)
  rw [div_eq_div_iff (ne_of_gt h11) (ne_of_gt h29)] at h
  have heq := mul_left_cancel₀ (by norm_num : (-1 / 2 : ℝ) ≠ 0) h
  have hlt : Real.sqrt (11 / 2) < Real.sqrt (29 / 4) :=
    Real.sqrt_lt_sqrt (by norm_num) (by norm_num)
  exact absurd heq.symm (ne_of_lt hlt)

/-- C3, amended: `cohens_d` standardizes the mean difference by the square
root of the unweighted average of the two sample variances; when the two
samples have equal sizes (at least two observations each) this coincides
with the effect size computed via the size-weighted pooled standard
deviation the claim describes. -/
theorem c3_equal_sizes (a b : List (Option ℚ))
    (hlen : (dropna a).length = (dropna b).length)
    (htwo : 2 ≤ (dropna a).length) :
    cohens_d a b = cohensDSizePooled a b := by
  have key : ((svar (dropna a) + svar (dropna b)) / 2 : ℚ) =
      (((((dropna a).length : ℚ) - 1) * svar (dropna a) +
          (((dropna b).length : ℚ) - 1) * svar (dropna b)) /
        (((dropna a).length : ℚ) + ((dropna b).length : ℚ) - 2) : ℚ) := by
    rw [← hlen]
    have hnn : (2 : ℚ) ≤ ((dropna a).length : ℚ) := by exact_mod_cast htwo
    have hden : ((dropna a).length : ℚ) + ((dropna a).length : ℚ) - 2 ≠ 0 := by
      have : (0 : ℚ) < ((dropna a).length : ℚ) + ((dropna a).length : ℚ) - 2 := by
        linarith
      exact ne_of_gt this
    field_simp
    ring
  rw [cohens_d_def, cohensDSizePooled_def, key]

/-- C3, witness: the amended theorem applied to two concrete samples of
equal size two. -/
theorem c3_equal_sizes_witness :
    cohens_d [some 0, some 2] [some 1, some 3]
      = cohensDSizePooled [some 0, some 2] [some 1, some 3] :=
  c3_equal_sizes [some 0, some 2] [some 1, some 3] (by decide) (by decide)

/-- A column of `applyCol c f df` is either an untouched column of `df`
whose name is not `c`, or a column of `df` named `c` with every cell mapped
through `f`. -/
theorem mem_applyCol {c : String} {f : Value → Value} {df : Table}
    {col : Column} (h : col ∈ applyCol c f df) :
    ∃ col0 ∈ df, (col0.name ≠ c ∧ col = col0) ∨
      (col0.name = c ∧ col = ⟨col0.name, col0.cells.map f⟩) := by
  simp only [applyCol, List.mem_map] at h
  obtain ⟨col0, h0, heq⟩ := h
  by_cases hc : col0.name = c
  · exact ⟨col0, h0, Or.inr ⟨hc, by rw [← heq, if_pos hc]⟩⟩
  · exact ⟨col0, h0, Or.inl ⟨hc, by rw [← heq, if_neg hc]⟩⟩

/-- The numeric coercion of any cell is numeric or missing. -/
theorem numCoerce_numOrMissing (ops : PandasOps) (v : Value) :
    (numCoerce ops v).numOrMissing = true := by
  unfold numCoerce
  cases ops.toNum v <;> rfl

/-- Applying the numeric coercion to column `c` makes every column named `c`
numeric-or-missing and keeps the property for other target names that
already had it. -/
theorem tableOK_applyCol_numeric (ops : PandasOps) (t c : String) (df : Table)
    (h : t = c ∨ TableOK t df) : TableOK t (applyCol c (numCoerce ops) df) := by
  intro col hcol hname
  obtain ⟨col0, h0, hcase⟩ := mem_applyCol hcol
  rcases hcase with ⟨hne, heq⟩ | ⟨hc, heq⟩
  · rcases h with rfl | hOK
    · exact absurd (heq ▸ hname) hne
    · rw [heq]
      exact hOK col0 h0 (heq ▸ hname)
  · rw [heq]
    intro v hv
    simp only [List.mem_map] at hv
    obtain ⟨v0, _, rfl⟩ := hv
    exact numCoerce_numOrMissing ops v0

/-- Transforming a column with a different name preserves the
numeric-or-missing property of the target columns. -/
theorem tableOK_applyCol_other (t c : String) (f : Value → Value) (df : Table)
    (hne : t ≠ c) (h : TableOK t df) : TableOK t (applyCol c f df) := by
  intro col hcol hname
  obtain ⟨col0, h0, hcase⟩ := mem_applyCol hcol
  rcases hcase with ⟨_, heq⟩ | ⟨hc, heq⟩
  · rw [heq]
    exact h col0 h0 (heq ▸ hname)
  · exact absurd (show t = c by rw [← hname, heq]; exact hc) hne

/-- Folding the numeric coercion over a list of names preserves the
numeric-or-missing property of the target columns. -/
theorem tableOK_foldl_numeric (ops : PandasOps) (t : String) :
    ∀ (L : List String) (df : Table), TableOK t df →
      TableOK t (L.foldl (fun d c => applyCol c (numCoerce ops) d) df) := by
  intro L
  induction L with
  | nil => exact fun df h => h
  | cons c L ih =>
    intro df h
    simp only [List.foldl_cons]
    exact ih _ (tableOK_applyCol_numeric ops t c df (Or.inr h))

/-- Folding the numeric coercion over a list containing the target name
establishes the numeric-or-missing property for the target columns. -/
theorem tableOK_foldl_numeric_mem (ops : PandasOps) (t : String) :
    ∀ (L : List String) (df : Table), t ∈ L →
      TableOK t (L.foldl (fun d c => applyCol c (numCoerce ops) d) df) := by
  intro L
  induction L with
  | nil => intro df h; exact absurd h (List.not_mem_nil t)
  | cons c L ih =>
    intro df hmem
    simp only [List.foldl_cons]
    rcases List.mem_cons.mp hmem with rfl | hL
    · exact tableOK_foldl_numeric ops t L _
        (tableOK_applyCol_numeric ops t t df (Or.inl rfl))
    · exact ih _ hL

/-- Folding a per-name column transformation over names that avoid the
target name preserves the numeric-or-missing property of the target
columns. -/
theorem tableOK_foldl_notmem (t : String) (g : String → Value → Value) :
    ∀ (L : List String) (df : Table), t ∉ L → TableOK t df →
      TableOK t (L.foldl (fun d c => applyCol c (g c) d) df) := by
  intro L
  induction L with
  | nil => exact fun df _ h => h
  | cons c L ih =>
    intro df hnm h
    simp only [List.foldl_cons]
    have hne : t ≠ c := fun heq => hnm (heq ▸ List.mem_cons_self c L)
    exact ih _ (fun hc => hnm (List.mem_cons_of_mem c hc))
      (tableOK_applyCol_other t c (g c) df hne h)

/-- After the full cleaning pipeline, every column carrying a name that is
numerically coerced and not subsequently cast to text holds only numeric or
missing cells. -/
theorem fullClean_tableOK (ops : PandasOps) (df : Table) (t : String)
    (htn : t ∈ numericCols) (htc : t ∉ catCols) :
    TableOK t (fullClean ops df) := by
  unfold fullClean
  exact tableOK_foldl_notmem t (fun _ v => .vStr (ops.toStr v)) catCols _ htc
    (tableOK_foldl_numeric_mem ops t numericCols _ htn)

/-- C5, counterexample: a parseable file whose only column is TotalPremium
holding the non-numeric token abc.  The required-column check fails, so the
loader returns the table before numeric coercion runs: the returned
TotalPremium column keeps the raw text cell, which is neither numeric nor
missing — refuting the claim for every table the loader returns. -/
theorem c5_counterexample :
    (load_data
        (fun p => if p = "f.txt" then some (some [⟨"TotalPremium", [.vStr "abc"]⟩]) else none)
        opsEx "f.txt").result
        = .ok (some [⟨"TotalPremium", [.vStr "abc"]⟩]) ∧
      (Value.vStr "abc").numOrMissing = false :=
  ⟨rfl, rfl⟩

/-- C5, amended: whenever `load_data` returns a table that contains every
required column (equivalently, whenever the early missing-column return was
not taken), the TotalPremium and TotalClaims columns of that table hold only
numeric or missing cells; a table returned through the missing-column path
is exempt, as the counterexample shows. -/
theorem c5_numeric_or_missing (fs : String → Option (Option Table))
    (ops : PandasOps) (path : String) (df : Table)
    (hres : (load_data fs ops path).result = .ok (some df))
    (hreq : ∀ c ∈ requiredCols, hasCol df c = true) :
    ∀ col ∈ df, (col.name = "TotalPremium" ∨ col.name = "TotalClaims") →
      ∀ v ∈ col.cells, v.numOrMissing = true := by
  match hfs : fs path with
  | none =>
    unfold load_data at hres
    rw [hfs] at hres
    exact absurd hres (by simp)
  | some none =>
    unfold load_data at hres
    rw [hfs] at hres
    exact absurd hres (by simp)
  | some (some raw) =>
    unfold load_data at hres
    rw [hfs] at hres
    simp only [] at hres
    by_cases hm : (missingFrom (normalizeHeaders raw)).isEmpty
    · rw [if_pos hm] at hres
      have hdf : df = fullClean ops (normalizeHeaders raw) := by
        injection hres with h1
        injection h1 with h2
        exact h2.symm
      subst hdf
      intro col hcol hname
      rcases hname with hname | hname
      · exact fullClean_tableOK ops _ "TotalPremium" (by decide) (by decide)
          col hcol hname
      · exact fullClean_tableOK ops _ "TotalClaims" (by decide) (by decide)
          col hcol hname
    · rw [if_neg hm] at hres
      have hdf : df = normalizeHeaders raw := by
        injection hres with h1
        injection h1 with h2
        exact h2.symm
      subst hdf
      have : missingFrom (normalizeHeaders raw) = [] := by
        unfold missingFrom
        rw [List.filter_eq_nil_iff]
        intro c hc
        simp [hreq c hc]
      rw [this] at hm
      exact absurd rfl hm

/-- C5, witness: a file holding all required columns, with a TotalClaims
cell the numeric parser rejects; the loaded table satisfies the invariant
at that cell (it was coerced to missing). -/
theorem c5_numeric_or_missing_witness : Value.vMissing.numOrMissing = true :=
  c5_numeric_or_missing
    (fun _ => some (some
      [⟨"TotalClaims", [.vStr "oops"]⟩, ⟨"TotalPremium", []⟩,
       ⟨"TransactionMonth", []⟩, ⟨"Province", []⟩, ⟨"VehicleType", []⟩]))
    opsEx "g.txt"
    [⟨"TotalClaims", [Value.vMissing]⟩, ⟨"TotalPremium", []⟩,
     ⟨"TransactionMonth", []⟩, ⟨"Province", []⟩, ⟨"VehicleType", []⟩]
    (by rfl) (by decide)
    ⟨"TotalClaims", [Value.vMissing]⟩ (by decide) (Or.inr rfl)
    Value.vMissing (by decide)

/-- Dropping missing values from a series with no missing values keeps its
length. -/
theorem dropna_length_of_no_none :
    ∀ xs : List (Option ℚ), (∀ x ∈ xs, x ≠ none) →
      (dropna xs).length = xs.length := by
  intro xs
  induction xs with
  | nil => intro _; rfl
  | cons x xs ih =>
    intro h
    cases x with
    | none => exact absurd rfl (h none (by simp))
    | some v =>
      have hx := ih (fun y hy => h y (List.mem_cons_of_mem _ hy))
      simp only [dropna, List.filterMap_cons, id] at hx ⊢
      simp [hx]

/-- Sample variance is nonnegative. -/
theorem svar_nonneg (xs : List ℚ) : 0 ≤ svar xs := by
  rcases xs with _ | ⟨y, ys⟩
  · simp [svar]
  · unfold svar
    apply div_nonneg
    · apply List.sum_nonneg
      intro x hx
      obtain ⟨z, _, rfl⟩ := List.mem_map.mp hx
      positivity
    · have h1 : (1 : ℚ) ≤ ((y :: ys).length : ℚ) := by
        have : 1 ≤ (y :: ys).length := by simp
        exact_mod_cast this
      linarith

/-- Every row of the claims-only subset built by the orchestrator carries a
present, positive claim amount. -/
theorem severity_rows_claims (df : List Row) (r : PRow)
    (hr : r ∈ (ABTester.ofData df).severityDf) :
    ∃ v, r.totalClaims = some v ∧ 0 < v := by
  have hr' : r ∈ (prepare df).filter (fun r => r.hasClaim == 1) := hr
  obtain ⟨hmem, hcl⟩ := List.mem_filter.mp hr'
  have h1 : r.hasClaim = 1 := by simpa using hcl
  simp only [prepare, List.mem_map] at hmem
  obtain ⟨r0, _, rfl⟩ := hmem
  have h1' : hasClaimOf r0.totalClaims = 1 := h1
  cases h : r0.totalClaims with
  | none =>
    rw [h] at h1'
    exact absurd h1' (by simp [hasClaimOf])
  | some v =>
    refine ⟨v, rfl, ?_⟩
    by_contra hv
    rw [h] at h1'
    simp [hasClaimOf, hv] at h1'

/-- The claims-only series of a group of an orchestrator dataset has no
missing entries. -/
theorem sevGroupData_no_none (df : List Row) (g : String) :
    ∀ x ∈ sevGroupData (ABTester.ofData df) g, x ≠ none := by
  intro x hx
  simp only [sevGroupData, List.mem_map] at hx
  obtain ⟨r, hr, rfl⟩ := hx
  obtain ⟨v, hv, _⟩ := severity_rows_claims df r (List.mem_filter.mp hr).1
  simp [hv]

/-- When both post-dropna samples have at least two observations and the
Welch variance term is nonzero, `t_test` performs the test and reports the
p-value the t-distribution tail kernel produces. -/
theorem t_test_some (pfun : ℚ → ℚ → ℚ) (a b : List (Option ℚ))
    (h2a : 2 ≤ (dropna a).length) (h2b : 2 ≤ (dropna b).length)
    (hv : svar (dropna a) / ((dropna a).length : ℚ) +
        svar (dropna b) / ((dropna b).length : ℚ) ≠ 0) :
    ∃ tsq dfr, t_test pfun a b = some (some tsq, some (pfun tsq dfr)) := by
  have key : t_test pfun a b =
      some (some ((lmean (dropna a) - lmean (dropna b)) ^ 2 /
          (svar (dropna a) / ((dropna a).length : ℚ) +
            svar (dropna b) / ((dropna b).length : ℚ))),
        some (pfun
          ((lmean (dropna a) - lmean (dropna b)) ^ 2 /
            (svar (dropna a) / ((dropna a).length : ℚ) +
              svar (dropna b) / ((dropna b).length : ℚ)))
          ((svar (dropna a) / ((dropna a).length : ℚ) +
              svar (dropna b) / ((dropna b).length : ℚ)) ^ 2 /
            ((svar (dropna a) / ((dropna a).length : ℚ)) ^ 2 /
                (((dropna a).length : ℚ) - 1) +
              (svar (dropna b) / ((dropna b).length : ℚ)) ^ 2 /
                (((dropna b).length : ℚ) - 1))))) := by
    simp only [t_test]
    rw [if_neg (by omega), if_neg hv]
  exact ⟨_, _, key⟩

/-- C7, counterexample: ten policies with the identical claim amount 100,
five in group X and five in group Y.  Both groups pass the five-observation
gate and the severity test runs, but the two zero-variance samples make the
Welch statistic and p-value NaN: the returned result carries no p-value in
the unit interval, refuting the claim that the result of the test always
contains a p-value in that interval. -/
theorem c7_counterexample :
    (sevGroupData (ABTester.ofData dfSevNoVar) "X").length = 5 ∧
      (sevGroupData (ABTester.ofData dfSevNoVar) "Y").length = 5 ∧
      sevPvalue (ABTester.test_severity pfunHalf (ABTester.ofData dfSevNoVar)
        "Province" "X" "Y") = some none := by
  have hda : sevGroupData (ABTester.ofData dfSevNoVar) "X" =
      [some 100, some 100, some 100, some 100, some 100] := rfl
  have hdb : sevGroupData (ABTester.ofData dfSevNoVar) "Y" =
      [some 100, some 100, some 100, some 100, some 100] := rfl
  refine ⟨by rw [hda]; rfl, by rw [hdb]; rfl, ?_⟩
  have hfm : dropna [some (100 : ℚ), some 100, some 100, some 100, some 100] =
      [100, 100, 100, 100, 100] := rfl
  have hsv : svar [(100 : ℚ), 100, 100, 100, 100] = 0 := by
    norm_num [svar, lmean]
  have hv0 : svar (dropna (sevGroupData (ABTester.ofData dfSevNoVar) "X")) /
        ((dropna (sevGroupData (ABTester.ofData dfSevNoVar) "X")).length : ℚ) +
      svar (dropna (sevGroupData (ABTester.ofData dfSevNoVar) "Y")) /
        ((dropna (sevGroupData (ABTester.ofData dfSevNoVar) "Y")).length : ℚ) = 0 := by
    rw [hda, hdb, hfm, hsv]
    norm_num
  have htt : t_test pfunHalf (sevGroupData (ABTester.ofData dfSevNoVar) "X")
      (sevGroupData (ABTester.ofData dfSevNoVar) "Y") = some (none, none) := by
    simp only [t_test]
    rw [if_neg (by rw [hda, hdb, hfm]; decide), if_pos hv0]
  simp only [ABTester.test_severity]
  rw [if_neg (by rw [hda, hdb]; decide), htt]
  rfl

/-- C7, amended: for an orchestrator dataset and two group identifiers,
if either group has fewer than five claims-only observations the severity
test returns the insufficient-data result and performs no statistical test;
if both have at least five and the two groups do not both have zero sample
variance, the test runs and returns a non-null result whose p-value lies in
the unit interval (whenever the t-distribution tail kernel maps into it);
with both variances zero the test still runs but its p-value is NaN, as the
counterexample shows. -/
theorem c7_severity_gate (pfun : ℚ → ℚ → ℚ) (df : List Row)
    (gc ga gb : String)
    (hp : ∀ x y, 0 ≤ pfun x y ∧ pfun x y ≤ 1) :
    ((sevGroupData (ABTester.ofData df) ga).length < 5 ∨
        (sevGroupData (ABTester.ofData df) gb).length < 5 →
      ABTester.test_severity pfun (ABTester.ofData df) gc ga gb =
        .ok (.insufficient "Severity (T-Test)" "Insufficient claims data for groups.")) ∧
      (5 ≤ (sevGroupData (ABTester.ofData df) ga).length →
        5 ≤ (sevGroupData (ABTester.ofData df) gb).length →
        (0 < svar (dropna (sevGroupData (ABTester.ofData df) ga)) ∨
          0 < svar (dropna (sevGroupData (ABTester.ofData df) gb))) →
        ∃ i q aa ab,
          ABTester.test_severity pfun (ABTester.ofData df) gc ga gb =
              .ok (.result i (some q) aa ab) ∧
            0 ≤ q ∧ q ≤ 1) := by
  constructor
  · intro hlt
    simp only [ABTester.test_severity]
    rw [if_pos hlt]
  · intro h5a h5b hvar
    have hna := sevGroupData_no_none df ga
    have hnb := sevGroupData_no_none df gb
    have hlena := dropna_length_of_no_none _ hna
    have hlenb := dropna_length_of_no_none _ hnb
    have h2a : 2 ≤ (dropna (sevGroupData (ABTester.ofData df) ga)).length := by
      rw [hlena]; omega
    have h2b : 2 ≤ (dropna (sevGroupData (ABTester.ofData df) gb)).length := by
      rw [hlenb]; omega
    have hposa : (0 : ℚ) < ((dropna (sevGroupData (ABTester.ofData df) ga)).length : ℚ) := by
      exact_mod_cast lt_of_lt_of_le (by norm_num) h2a
    have hposb : (0 : ℚ) < ((dropna (sevGroupData (ABTester.ofData df) gb)).length : ℚ) := by
      exact_mod_cast lt_of_lt_of_le (by norm_num) h2b
    have hvpos : 0 < svar (dropna (sevGroupData (ABTester.ofData df) ga)) /
          ((dropna (sevGroupData (ABTester.ofData df) ga)).length : ℚ) +
        svar (dropna (sevGroupData (ABTester.ofData df) gb)) /
          ((dropna (sevGroupData (ABTester.ofData df) gb)).length : ℚ) := by
      rcases hvar with h | h
      · have t1 := div_pos h hposa
        have t2 := div_nonneg (svar_nonneg (dropna (sevGroupData (ABTester.ofData df) gb)))
          (le_of_lt hposb)
        linarith
      · have t1 := div_pos h hposb
        have t2 := div_nonneg (svar_nonneg (dropna (sevGroupData (ABTester.ofData df) ga)))
          (le_of_lt hposa)
        linarith
    obtain ⟨tsq, dfr, htt⟩ := t_test_some pfun _ _ h2a h2b hvpos.ne'
    simp only [ABTester.test_severity]
    rw [if_neg (by omega), htt]
    exact ⟨_, pfun tsq dfr, _, _, rfl, (hp tsq dfr).1, (hp tsq dfr).2⟩

/-- C7, witness: the amended theorem applied to a concrete dataset with five
claims per group and positive variance in group X. -/
theorem c7_severity_gate_witness :
    ∃ i q aa ab,
      ABTester.test_severity pfunHalf (ABTester.ofData dfSevVar) "Province" "X" "Y" =
          .ok (.result i (some q) aa ab) ∧
        0 ≤ q ∧ q ≤ 1 :=
  (c7_severity_gate pfunHalf dfSevVar "Province" "X" "Y"
      (fun _ _ => by norm_num [pfunHalf])).2
    (by rw [show sevGroupData (ABTester.ofData dfSevVar) "X" =
        [some 1, some 2, some 3, some 4, some 5] from rfl]; decide)
    (by rw [show sevGroupData (ABTester.ofData dfSevVar) "Y" =
        [some 2, some 2, some 3, some 4, some 10] from rfl]; decide)
    (Or.inl (by
      rw [show dropna (sevGroupData (ABTester.ofData dfSevVar) "X") =
        [1, 2, 3, 4, 5] from rfl]
      norm_num [svar, lmean]))

end AlphaCare
